import Mathlib

/-!
Verification of the viewport state engine of the `viewport-sense` repository
(`src/core/viewport.ts` and `src/core/events.ts`), as a shallow embedding.

JavaScript objects used as string-keyed records (`DEFAULT_BREAKPOINTS`,
`customBreakpoints`, …) are modelled as association lists in key-insertion
order, matching `Object.entries` enumeration order.  `Array.prototype.sort`
with a numeric comparator is required to be stable by the language standard,
so it is modelled by Mathlib's stable `List.insertionSort`: a stable sort
consistent with the comparator has a unique result, hence any stable sort
models it faithfully.  Machine numbers: widths/heights/thresholds are
non-negative integers (`Nat`), `devicePixelRatio` is a rational.
-/

namespace ViewportSense

/-- A breakpoint table: `Object.entries` view of a `{name: minWidth}` record,
in key-insertion order. -/
abbrev BreakpointTable := List (String × Nat)

/-- `DEFAULT_BREAKPOINTS` from `src/core/viewport.ts` (Bootstrap-style). -/
def DEFAULT_BREAKPOINTS : BreakpointTable :=
  [("xs", 0), ("sm", 576), ("md", 768), ("lg", 992), ("xl", 1200), ("xxl", 1400)]

/-- Object spread `{ ...a, ...b }`: keys of `a` in order (values overridden by
`b` on name collision), then keys of `b` not present in `a`, in order. -/
def mergeBreakpoints (a b : BreakpointTable) : BreakpointTable :=
  (a.map fun p =>
    match b.find? (fun q => q.1 = p.1) with
    | some q => (p.1, q.2)
    | none => p)
  ++ b.filter (fun q => ¬ a.any (fun p => p.1 = q.1))

/-- Property access `table[name]` on a record viewed as an association list
(`undefined` becomes `none`). -/
def lookupBp (t : BreakpointTable) (name : String) : Option Nat :=
  (t.find? (fun p => p.1 = name)).map Prod.snd

/-- Comparator `(a, b) => b - a` of `calculateBreakpoint` (sort descending by
threshold): `x` may come before `y` iff `y.2 ≤ x.2`. -/
def bpGE (x y : String × Nat) : Prop := y.2 ≤ x.2

/-- Comparator `(a, b) => a - b` (sort ascending by threshold). -/
def bpLE (x y : String × Nat) : Prop := x.2 ≤ y.2

instance : DecidableRel bpGE := fun x y => Nat.decLe y.2 x.2

instance : DecidableRel bpLE := fun x y => Nat.decLe x.2 y.2

instance : IsTotal (String × Nat) bpGE := ⟨fun x y => Nat.le_total y.2 x.2⟩

instance : IsTrans (String × Nat) bpGE := ⟨fun _ _ _ hab hbc => Nat.le_trans hbc hab⟩

instance : IsTotal (String × Nat) bpLE := ⟨fun x y => Nat.le_total x.2 y.2⟩

instance : IsTrans (String × Nat) bpLE := ⟨fun _ _ _ hab hbc => Nat.le_trans hab hbc⟩

/-- `Object.entries(allBreakpoints).sort(([, a], [, b]) => b - a)`:
stable sort, descending by threshold. -/
def sortDesc (t : BreakpointTable) : BreakpointTable := t.insertionSort bpGE

/-- `Object.entries(allBreakpoints).sort(([, a], [, b]) => a - b)`:
stable sort, ascending by threshold. -/
def sortAsc (t : BreakpointTable) : BreakpointTable := t.insertionSort bpLE

/-- Body of `ViewportCore.calculateBreakpoint` after the table merge: walk the
descending-sorted entries, return the first name whose threshold is `≤ width`;
otherwise return the name of the first ascending-sorted entry, or `'xs'` when
the table is empty (`smallestBreakpoint?.[0] ?? 'xs'`). -/
def classifyTable (t : BreakpointTable) (width : Nat) : String :=
  match (sortDesc t).find? (fun p => width ≥ p.2) with
  | some p => p.1
  | none =>
    match (sortAsc t).head? with
    | some p => p.1
    | none => "xs"

/-- `ViewportConfig`: the optional constructor argument.  A `none` field models
an absent key (so the spread `{ ...DEFAULT_CONFIG, ...config }` keeps the
default). -/
structure ViewportConfig where
  breakpoints : Option BreakpointTable := none
  debounceDelay : Option Nat := none
  enableTouch : Option Bool := none
  enableHighDPI : Option Bool := none
  customBreakpoints : Option BreakpointTable := none
deriving Repr, DecidableEq

/-- `Required<ViewportConfig>`: the engine's effective configuration. -/
structure RequiredConfig where
  breakpoints : BreakpointTable
  debounceDelay : Nat
  enableTouch : Bool
  enableHighDPI : Bool
  customBreakpoints : BreakpointTable
deriving Repr, DecidableEq

/-- `this.config = { ...DEFAULT_CONFIG, ...config }` in the constructor:
a present key in `config` replaces the default wholesale. -/
def mergeConfig (c : ViewportConfig) : RequiredConfig where
  breakpoints := c.breakpoints.getD DEFAULT_BREAKPOINTS
  debounceDelay := c.debounceDelay.getD 100
  enableTouch := c.enableTouch.getD true
  enableHighDPI := c.enableHighDPI.getD true
  customBreakpoints := c.customBreakpoints.getD []

/-- `ViewportState` (src/types): the value assembled by `calculateState`. -/
structure ViewportState where
  width : Nat
  height : Nat
  breakpoint : String
  isMobile : Bool
  isTablet : Bool
  isDesktop : Bool
  isTouch : Bool
  orientation : String
  pixelRatio : ℚ
  availableWidth : Nat
  availableHeight : Nat
deriving Repr, DecidableEq

/-- The raw platform values read by one `calculateState` call:
`window.innerWidth/innerHeight`, `window.devicePixelRatio`,
`window.screen?.availWidth/availHeight` (absent screen → `none`), and the
result of the `detectTouch()` disjunction over the touch-capability flags. -/
structure Env where
  innerWidth : Nat
  innerHeight : Nat
  devicePixelRatio : ℚ
  screenAvail : Option (Nat × Nat)
  touchCapable : Bool
deriving Repr, DecidableEq

/-- `ViewportCore.calculateIsMobile`: `width < (config.breakpoints.md ?? 768)`
(`DEFAULT_BREAKPOINTS.md = 768`).  Note: reads `config.breakpoints`, not the
merged table. -/
def calculateIsMobile (cfg : RequiredConfig) (width : Nat) : Bool :=
  width < (lookupBp cfg.breakpoints "md").getD 768

/-- `ViewportCore.calculateIsTablet`: `md ≤ width < lg` with
`md = config.breakpoints.md ?? 768`, `lg = config.breakpoints.lg ?? 992`. -/
def calculateIsTablet (cfg : RequiredConfig) (width : Nat) : Bool :=
  (lookupBp cfg.breakpoints "md").getD 768 ≤ width
    && width < (lookupBp cfg.breakpoints "lg").getD 992

/-- `ViewportCore.calculateBreakpoint`: merge
`{ ...config.breakpoints, ...config.customBreakpoints }`, then classify. -/
def calculateBreakpoint (cfg : RequiredConfig) (width : Nat) : String :=
  classifyTable (mergeBreakpoints cfg.breakpoints cfg.customBreakpoints) width

/-- `ViewportCore.calculateState`. -/
def calculateState (cfg : RequiredConfig) (env : Env) : ViewportState :=
  let width := env.innerWidth
  let height := env.innerHeight
  let pixelRatio : ℚ :=
    if cfg.enableHighDPI then
      (if env.devicePixelRatio = 0 then 1 else env.devicePixelRatio)
    else 1
  let availableWidth := match env.screenAvail with
    | some av => av.1
    | none => width
  let availableHeight := match env.screenAvail with
    | some av => av.2
    | none => height
  let isMobile := calculateIsMobile cfg width
  let isTablet := calculateIsTablet cfg width
  let isDesktop := !isMobile && !isTablet
  let isTouch := if cfg.enableTouch then env.touchCapable else false
  let orientation := if width > height then "landscape" else "portrait"
  let breakpoint := calculateBreakpoint cfg width
  { width := width, height := height, breakpoint := breakpoint,
    isMobile := isMobile, isTablet := isTablet, isDesktop := isDesktop,
    isTouch := isTouch, orientation := orientation, pixelRatio := pixelRatio,
    availableWidth := availableWidth, availableHeight := availableHeight }

/-- One `eventManager.emit(...)` call made by the engine, with its payload. -/
inductive EmittedEvent where
  | resize (state : ViewportState)
  | breakpointchange (newBp oldBp : String)
  | orientationchange (newOrientation : String)
  | touchchange (newTouch : Bool)
deriving Repr, DecidableEq

def isResizeEvent : EmittedEvent → Bool
  | .resize _ => true
  | _ => false

def isChangeEvent : EmittedEvent → Bool
  | .resize _ => false
  | _ => true

/-- `ViewportCore.emitChangeEvents`, as the list of emit calls it performs,
in program order. -/
def emitChangeEvents (previousState newState : ViewportState) : List EmittedEvent :=
  (if previousState.breakpoint ≠ newState.breakpoint then
    [EmittedEvent.breakpointchange newState.breakpoint previousState.breakpoint]
  else [])
  ++ (if previousState.orientation ≠ newState.orientation then
    [EmittedEvent.orientationchange newState.orientation]
  else [])
  ++ (if previousState.isTouch ≠ newState.isTouch then
    [EmittedEvent.touchchange newState.isTouch]
  else [])

/-- Which optional native APIs the hosting browser provides
(`typeof ResizeObserver !== 'undefined'`, `window.visualViewport`). -/
structure NativeEnv where
  hasResizeObserver : Bool
  hasVisualViewport : Bool
deriving Repr, DecidableEq

/-- The mutable state of one `ViewportCore` instance together with its
`EventManager`, and the platform-side resources it has created: which native
listener registrations exist, whether a debounce timer or an animation frame
is pending.  RAF callbacks are identified by `Nat` ids — every scheduled
callback is an `() => this.updateState()` closure, and each evaluation of that
arrow-function expression yields a distinct function object, so distinct
firings pass distinct ids. -/
structure EngineState where
  cfg : RequiredConfig
  currentState : Option ViewportState
  isDestroyed : Bool
  resizeObserverConnected : Bool
  windowResizeListener : Bool
  orientationchangeListener : Bool
  visualViewportResizeListener : Bool
  mediaQueryChangeListeners : List String
  mediaQueryListsMap : List String
  pendingDebounceTimer : Option Nat
  rafId : Option Nat
  rafCallbacks : List Nat
deriving Repr, DecidableEq

/-- The instance right after the constructor's `setupEventListeners` and
`setupMediaQueries` (before the first `updateState`): the resize observer is
used when available, else the debounced `window` resize listener; an
`orientationchange` listener is always added; a debounced `visualViewport`
resize listener is added when available; one media-query `change` listener is
registered per merged breakpoint, and the engine's `mediaQueryLists` map keeps
one entry per name. -/
def freshEngine (cfg : RequiredConfig) (native : NativeEnv) : EngineState where
  cfg := cfg
  currentState := none
  isDestroyed := false
  resizeObserverConnected := native.hasResizeObserver
  windowResizeListener := !native.hasResizeObserver
  orientationchangeListener := true
  visualViewportResizeListener := native.hasVisualViewport
  mediaQueryChangeListeners :=
    (mergeBreakpoints cfg.breakpoints cfg.customBreakpoints).map Prod.fst
  mediaQueryListsMap :=
    (mergeBreakpoints cfg.breakpoints cfg.customBreakpoints).map Prod.fst
  pendingDebounceTimer := none
  rafId := none
  rafCallbacks := []

/-- `ViewportCore.updateState`, returning the new instance state and the
emit calls of this recomputation cycle in program order: early return when
destroyed; else compute the new state, store it, `emitChangeEvents` iff a
previous state existed, then `emit('resize', newState)`. -/
def updateState (s : EngineState) (env : Env) : EngineState × List EmittedEvent :=
  if s.isDestroyed then (s, [])
  else
    let newState := calculateState s.cfg env
    let changeEvents := match s.currentState with
      | some previousState => emitChangeEvents previousState newState
      | none => []
    ({ s with currentState := some newState },
     changeEvents ++ [EmittedEvent.resize newState])

/-- `ViewportCore.getState`: when no state is stored, run `updateState`
first; then return `this.currentState!` (`none` models the `null` the
non-null assertion hides).  Also returns the emit calls performed. -/
def getState (s : EngineState) (env : Env) :
    EngineState × List EmittedEvent × Option ViewportState :=
  match s.currentState with
  | some st => (s, [], some st)
  | none =>
    match updateState s env with
    | (s2, evs) => (s2, evs, s2.currentState)

/-- `ViewportCore.destroy`: early return when already destroyed; else set the
flag, disconnect the resize observer, clear the `mediaQueryLists` map, run
`eventManager.destroy()` (clear handlers and RAF callbacks, cancel a pending
frame), and null the stored state.  The `window` resize / `orientationchange`
/ `visualViewport` resize listeners, the media-query `change` listeners and
any pending debounce timer are not touched by the source. -/
def destroy (s : EngineState) : EngineState :=
  if s.isDestroyed then s
  else
    { s with
      isDestroyed := true
      resizeObserverConnected := false
      mediaQueryListsMap := []
      rafCallbacks := []
      rafId := none
      currentState := none }

/-- `EventManager.scheduleRAF`: add the callback to the `rafCallbacks` set
(`Set.add`: append if not already a member), and request one animation frame
if none is pending. -/
def scheduleRAF (s : EngineState) (cbId newRafId : Nat) : EngineState :=
  let cbs := if cbId ∈ s.rafCallbacks then s.rafCallbacks else s.rafCallbacks ++ [cbId]
  if s.rafId = none then { s with rafCallbacks := cbs, rafId := some newRafId }
  else { s with rafCallbacks := cbs }

/-- One firing of the `ResizeObserver` (or media-query `change`) callback:
it evaluates a fresh `() => this.updateState()` closure — a new function
object each time, hence a fresh `freshCbId` — and hands it to `scheduleRAF`. -/
def resizeObserverFires (s : EngineState) (freshCbId newRafId : Nat) : EngineState :=
  scheduleRAF s freshCbId newRafId

/-- The animation frame firing: snapshot `rafCallbacks`, clear the set and the
id, then run every callback of the snapshot.  Each scheduled callback is an
`() => this.updateState()` closure, so each one performs one `updateState`;
the emit calls of all of them are returned concatenated. -/
def fireAnimationFrame (s : EngineState) (env : Env) : EngineState × List EmittedEvent :=
  let callbacks := s.rafCallbacks
  let s1 := { s with rafCallbacks := [], rafId := none }
  callbacks.foldl
    (fun acc _cb =>
      match updateState acc.1 env with
      | (e2, evs) => (e2, acc.2 ++ evs))
    (s1, [])

/-- One call of the function returned by `EventManager.debounce`:
`clearTimeout(timeoutId); timeoutId = window.setTimeout(..., delay)` — the
previous pending timer (if any) is replaced by a fresh one. -/
def debouncedCall (s : EngineState) (newTimeoutId : Nat) : EngineState :=
  { s with pendingDebounceTimer := some newTimeoutId }

/-- Whether, in one cycle's emit trace, the (unique) `resize` emission comes
before the first change emission (vacuously true when either is absent). -/
def resizeBeforeChanges (events : List EmittedEvent) : Bool :=
  match events.findIdx? isResizeEvent, events.findIdx? isChangeEvent with
  | some i, some j => i < j
  | _, _ => true

/-- A 500×800 portrait viewport, no touch, ratio 1, no `screen` object. -/
def envA : Env := ⟨500, 800, 1, none, false⟩

/-- A 1000×1600 portrait viewport, no touch, ratio 1, no `screen` object. -/
def envB : Env := ⟨1000, 1600, 1, none, false⟩

theorem emitChangeEvents_all_change (p n : ViewportState) :
    (emitChangeEvents p n).all isChangeEvent = true := by
  simp only [emitChangeEvents, List.all_append, Bool.and_eq_true]
  refine ⟨⟨?_, ?_⟩, ?_⟩ <;> split <;> simp [isChangeEvent]

/-- C1 (counterexample): a concrete second recomputation cycle whose trace is
`[breakpointchange "lg" "xs", resize …]` — the `resize` emission comes after
the `breakpointchange` emission, refuting "resize is emitted first". -/
theorem resize_not_first_cex :
    (updateState ((updateState (freshEngine (mergeConfig {}) ⟨true, false⟩) envA).1) envB).2
        = [EmittedEvent.breakpointchange "lg" "xs",
           EmittedEvent.resize (calculateState (mergeConfig {}) envB)] ∧
      resizeBeforeChanges
        ((updateState ((updateState (freshEngine (mergeConfig {}) ⟨true, false⟩) envA).1) envB).2)
        = false := by
  constructor
  · decide
  · decide

/-- C1 (amended): within one recomputation cycle of a live engine, the
conditional change events are emitted first and `resize` is emitted last. -/
theorem updateState_resize_emitted_last (s : EngineState) (env : Env)
    (h : s.isDestroyed = false) :
    (updateState s env).2.getLast? = some (EmittedEvent.resize (calculateState s.cfg env)) ∧
      (updateState s env).2.dropLast.all isChangeEvent = true := by
  simp only [updateState, h, Bool.false_eq_true, if_false]
  constructor
  · exact List.getLast?_concat _
  · rw [List.dropLast_concat]
    cases s.currentState with
    | none => rfl
    | some p => exact emitChangeEvents_all_change p _

/-- C1 (witness): the amended ordering at the concrete cycle of the
counterexample. -/
theorem updateState_resize_emitted_last_witness :
    ((updateState (freshEngine (mergeConfig {}) ⟨true, false⟩) envA).1.isDestroyed = false) ∧
      (updateState ((updateState (freshEngine (mergeConfig {}) ⟨true, false⟩) envA).1) envB).2.getLast?
        = some (EmittedEvent.resize
            (calculateState ((updateState (freshEngine (mergeConfig {}) ⟨true, false⟩) envA).1).cfg envB)) :=
  ⟨by decide, (updateState_resize_emitted_last _ envB (by decide)).1⟩

/-- C2 (counterexample): an engine that has computed one state; after
`destroy()`, `getState()` returns `none` (the `null` behind the non-null
assertion), not the last computed state. -/
theorem getState_after_destroy_cex :
    ((updateState (freshEngine (mergeConfig {}) ⟨true, false⟩) envA).1.currentState
        = some (calculateState (mergeConfig {}) envA)) ∧
      (getState (destroy ((updateState (freshEngine (mergeConfig {}) ⟨true, false⟩) envA).1)) envA).2.2
        = none := by
  constructor
  · decide
  · decide

/-- C2 (amended): after `destroy()` of a live engine, `getState()` returns
`none` — `destroy` nulls the stored state and the destroyed guard stops the
lazy recomputation — and performs no emission (it does not throw: the model is
total). -/
theorem getState_after_destroy_returns_none (s : EngineState) (env : Env)
    (h : s.isDestroyed = false) :
    (getState (destroy s) env).2.2 = none ∧ (getState (destroy s) env).2.1 = [] := by
  simp [destroy, h, getState, updateState]

/-- C2 (witness): the amended behavior at the counterexample's engine. -/
theorem getState_after_destroy_returns_none_witness :
    ((updateState (freshEngine (mergeConfig {}) ⟨true, false⟩) envA).1.isDestroyed = false) ∧
      (getState (destroy ((updateState (freshEngine (mergeConfig {}) ⟨true, false⟩) envA).1)) envA).2.2
        = none :=
  ⟨by decide, (getState_after_destroy_returns_none _ envA (by decide)).1⟩

/-- C6 (counterexample): with `customBreakpoints = {md: 500}` the effective
merged table has `md = 500` and `lg = 992`, so the claimed derivation makes a
600px viewport a tablet (¬(600 < 500) ∧ 500 ≤ 600 < 992); the code instead
reads `config.breakpoints.md = 768` and reports mobile. -/
theorem device_flags_ignore_custom_cex :
    (lookupBp (mergeBreakpoints (mergeConfig { customBreakpoints := some [("md", 500)] }).breakpoints
        (mergeConfig { customBreakpoints := some [("md", 500)] }).customBreakpoints) "md"
      = some 500) ∧
    (lookupBp (mergeBreakpoints (mergeConfig { customBreakpoints := some [("md", 500)] }).breakpoints
        (mergeConfig { customBreakpoints := some [("md", 500)] }).customBreakpoints) "lg"
      = some 992) ∧
    (calculateState (mergeConfig { customBreakpoints := some [("md", 500)] })
        ⟨600, 800, 1, none, false⟩).isMobile = true ∧
    (calculateState (mergeConfig { customBreakpoints := some [("md", 500)] })
        ⟨600, 800, 1, none, false⟩).isTablet = false ∧
    decide (600 < 500) = false ∧ (decide (500 ≤ 600) && decide (600 < 992)) = true := by
  refine ⟨?_, ?_, ?_, ?_, ?_, ?_⟩ <;> decide

/-- C6 (amended): the device-class flags are derived from the `md`/`lg`
entries of the constructor's `breakpoints` table (falling back to the default
768/992 when absent); the `customBreakpoints` overrides never affect them. -/
theorem device_flags_from_config_breakpoints (cfg : RequiredConfig)
    (c1 c2 : BreakpointTable) (env : Env) :
    ((calculateState { cfg with customBreakpoints := c1 } env).isMobile
        = (calculateState { cfg with customBreakpoints := c2 } env).isMobile ∧
      (calculateState { cfg with customBreakpoints := c1 } env).isTablet
        = (calculateState { cfg with customBreakpoints := c2 } env).isTablet ∧
      (calculateState { cfg with customBreakpoints := c1 } env).isDesktop
        = (calculateState { cfg with customBreakpoints := c2 } env).isDesktop) ∧
    (calculateState { cfg with customBreakpoints := c1 } env).isMobile
      = decide (env.innerWidth < (lookupBp cfg.breakpoints "md").getD 768) ∧
    (calculateState { cfg with customBreakpoints := c1 } env).isTablet
      = (decide ((lookupBp cfg.breakpoints "md").getD 768 ≤ env.innerWidth)
          && decide (env.innerWidth < (lookupBp cfg.breakpoints "lg").getD 992)) ∧
    (calculateState { cfg with customBreakpoints := c1 } env).isDesktop
      = (!(calculateState { cfg with customBreakpoints := c1 } env).isMobile
          && !(calculateState { cfg with customBreakpoints := c1 } env).isTablet) :=
  ⟨⟨rfl, rfl, rfl⟩, rfl, rfl, rfl⟩

/-- C9: for every configuration and every platform reading, exactly one of
`isMobile`, `isTablet`, `isDesktop` is true in the computed state. -/
theorem device_flags_exactly_one (cfg : RequiredConfig) (env : Env) :
    (calculateState cfg env).isMobile.toNat + (calculateState cfg env).isTablet.toNat
      + (calculateState cfg env).isDesktop.toNat = 1 := by
  have hm : (calculateState cfg env).isMobile = calculateIsMobile cfg env.innerWidth := rfl
  have ht : (calculateState cfg env).isTablet = calculateIsTablet cfg env.innerWidth := rfl
  have hd : (calculateState cfg env).isDesktop
      = (!(calculateIsMobile cfg env.innerWidth) && !(calculateIsTablet cfg env.innerWidth)) := rfl
  rw [hm, ht, hd]
  unfold calculateIsMobile calculateIsTablet
  rcases Nat.lt_or_ge env.innerWidth ((lookupBp cfg.breakpoints "md").getD 768) with h1 | h1 <;>
    rcases Nat.lt_or_ge env.innerWidth ((lookupBp cfg.breakpoints "lg").getD 992) with h2 | h2 <;>
      simp [h1, h2, Nat.not_lt.mpr, Nat.not_le.mpr]

/-- C10: `breakpoints: {}` at construction replaces the defaults wholesale, so
the merged table is empty, classification returns the literal `'xs'` for every
width ('xs' names no configured entry — the table has none), and `getState()`
reports breakpoint `'xs'`. -/
theorem empty_table_breakpoint_xs (env : Env) (w : Nat) :
    mergeBreakpoints (mergeConfig { breakpoints := some [] }).breakpoints
        (mergeConfig { breakpoints := some [] }).customBreakpoints = [] ∧
      classifyTable [] w = "xs" ∧
      (calculateState (mergeConfig { breakpoints := some [] }) env).breakpoint = "xs" ∧
      ((getState ((updateState (freshEngine (mergeConfig { breakpoints := some [] }) ⟨true, false⟩) env).1)
          env).2.2).map ViewportState.breakpoint = some "xs" :=
  ⟨rfl, rfl, rfl, rfl⟩

theorem mem_sortDesc {p : String × Nat} {t : BreakpointTable} : p ∈ sortDesc t ↔ p ∈ t :=
  List.mem_insertionSort bpGE

theorem sorted_sortDesc (t : BreakpointTable) : List.Sorted bpGE (sortDesc t) :=
  List.sorted_insertionSort bpGE t

theorem mem_sortAsc {p : String × Nat} {t : BreakpointTable} : p ∈ sortAsc t ↔ p ∈ t :=
  List.mem_insertionSort bpLE

theorem sorted_sortAsc (t : BreakpointTable) : List.Sorted bpLE (sortAsc t) :=
  List.sorted_insertionSort bpLE t

theorem length_sortAsc (t : BreakpointTable) : (sortAsc t).length = t.length :=
  List.length_insertionSort bpLE t

/-- Inserting an entry of threshold `v` passes only strictly larger
thresholds, so it lands in front of every other entry of threshold `v`. -/
theorem filter_orderedInsert_of_eq (a : String × Nat) (v : Nat) (h : a.2 = v) :
    ∀ l : BreakpointTable,
      (l.orderedInsert bpGE a).filter (fun q => q.2 = v)
        = a :: l.filter (fun q => q.2 = v)
  | [] => by simp [List.orderedInsert, List.filter_cons, h]
  | b :: l => by
    by_cases hab : bpGE a b
    · rw [List.orderedInsert_of_le bpGE l hab]
      simp [List.filter_cons, h]
    · have hb : ¬ (b.2 = v) := fun hbv => hab (Nat.le_of_eq (by rw [hbv, ← h]))
      have heq : (b :: l).orderedInsert bpGE a = b :: l.orderedInsert bpGE a := by
        simp [List.orderedInsert, hab]
      rw [heq]
      simp [List.filter_cons, hb, filter_orderedInsert_of_eq a v h l]

/-- Inserting an entry of a different threshold leaves the `v`-threshold
sublist unchanged. -/
theorem filter_orderedInsert_of_ne (a : String × Nat) (v : Nat) (h : ¬ (a.2 = v)) :
    ∀ l : BreakpointTable,
      (l.orderedInsert bpGE a).filter (fun q => q.2 = v) = l.filter (fun q => q.2 = v)
  | [] => by simp [List.orderedInsert, List.filter_cons, h]
  | b :: l => by
    by_cases hab : bpGE a b
    · rw [List.orderedInsert_of_le bpGE l hab]
      simp [List.filter_cons, h]
    · have heq : (b :: l).orderedInsert bpGE a = b :: l.orderedInsert bpGE a := by
        simp [List.orderedInsert, hab]
      rw [heq]
      simp [List.filter_cons, filter_orderedInsert_of_ne a v h l]

/-- Stability of the descending sort: entries sharing one threshold value keep
their original relative order (the sublist at each threshold is unchanged). -/
theorem filter_sortDesc (v : Nat) : ∀ t : BreakpointTable,
    (sortDesc t).filter (fun q => q.2 = v) = t.filter (fun q => q.2 = v)
  | [] => rfl
  | a :: t => by
    have hstep : sortDesc (a :: t) = (sortDesc t).orderedInsert bpGE a := rfl
    rw [hstep]
    by_cases h : a.2 = v
    · rw [filter_orderedInsert_of_eq a v h, filter_sortDesc v t,
        List.filter_cons_of_pos (by simpa using h)]
    · rw [filter_orderedInsert_of_ne a v h, filter_sortDesc v t,
        List.filter_cons_of_neg (by simpa using h)]

/-- In a descending-sorted table, the first entry with threshold `≤ w` has the
greatest threshold among entries with threshold `≤ w`. -/
theorem find?_sortedDesc_greatest {w : Nat} :
    ∀ {l : BreakpointTable} {p : String × Nat}, List.Sorted bpGE l →
      l.find? (fun q => w ≥ q.2) = some p → ∀ q ∈ l, q.2 ≤ w → q.2 ≤ p.2
  | [], p => by intro _ hf; simp at hf
  | a :: l, p => by
    intro hs hf
    by_cases ha : w ≥ a.2
    · rw [List.find?_cons_of_pos _ (by simpa using ha)] at hf
      obtain rfl := Option.some.inj hf
      intro q hq _
      rcases List.mem_cons.mp hq with rfl | hq'
      · exact Nat.le_refl _
      · exact List.rel_of_sorted_cons hs q hq'
    · rw [List.find?_cons_of_neg _ (by simpa using ha)] at hf
      intro q hq hqw
      rcases List.mem_cons.mp hq with rfl | hq'
      · exact absurd hqw ha
      · exact find?_sortedDesc_greatest (List.Sorted.of_cons hs) hf q hq' hqw

/-- In a descending-sorted table, the first entry with threshold `≤ w` is the
first entry carrying its threshold value: entries passed over are strictly
larger. -/
theorem find?_sortedDesc_head_filter {w : Nat} :
    ∀ {l : BreakpointTable} {p : String × Nat}, List.Sorted bpGE l →
      l.find? (fun q => w ≥ q.2) = some p →
      (l.filter (fun q => q.2 = p.2)).head? = some p
  | [], p => by intro _ hf; simp at hf
  | a :: l, p => by
    intro hs hf
    by_cases ha : w ≥ a.2
    · rw [List.find?_cons_of_pos _ (by simpa using ha)] at hf
      obtain rfl := Option.some.inj hf
      simp [List.filter_cons]
    · rw [List.find?_cons_of_neg _ (by simpa using ha)] at hf
      have hpw : w ≥ p.2 := by simpa using List.find?_some hf
      have hne : ¬ (a.2 = p.2) := fun he => ha (by rw [he]; exact hpw)
      rw [List.filter_cons_of_neg (by simpa using hne)]
      exact find?_sortedDesc_head_filter (List.Sorted.of_cons hs) hf

/-- C8: on every non-empty table, classification returns the name of an entry
with the greatest threshold `≤ width` (boundary inclusive); when every
threshold exceeds the width, it returns the name of a smallest-threshold
entry. -/
theorem classifyTable_greatest_le_width (t : BreakpointTable) (w : Nat) (h : t ≠ []) :
    (∃ p : String × Nat, p ∈ t ∧ classifyTable t w = p.1 ∧ p.2 ≤ w ∧
        ∀ q ∈ t, q.2 ≤ w → q.2 ≤ p.2) ∨
      ((∀ q ∈ t, w < q.2) ∧ ∃ p : String × Nat, p ∈ t ∧ classifyTable t w = p.1 ∧
        ∀ q ∈ t, p.2 ≤ q.2) := by
  cases hf : (sortDesc t).find? (fun q => w ≥ q.2) with
  | some p =>
    left
    refine ⟨p, ?_, ?_, ?_, ?_⟩
    · exact mem_sortDesc.mp (List.mem_of_find?_eq_some hf)
    · simp [classifyTable, hf]
    · simpa using List.find?_some hf
    · intro q hq hqw
      exact find?_sortedDesc_greatest (sorted_sortDesc t) hf q (mem_sortDesc.mpr hq) hqw
  | none =>
    right
    have hall : ∀ q ∈ t, w < q.2 := by
      intro q hq
      have hnq := List.find?_eq_none.mp hf q (mem_sortDesc.mpr hq)
      exact Nat.not_le.mp (by simpa using hnq)
    refine ⟨hall, ?_⟩
    cases hsa : sortAsc t with
    | nil =>
      exact absurd (List.eq_nil_of_length_eq_zero (by rw [← length_sortAsc t, hsa]; rfl)) h
    | cons p l' =>
      refine ⟨p, ?_, ?_, ?_⟩
      · exact mem_sortAsc.mp (hsa ▸ List.mem_cons_self p l')
      · simp [classifyTable, hf, hsa]
      · intro q hq
        have hq' : q ∈ p :: l' := hsa ▸ mem_sortAsc.mpr hq
        rcases List.mem_cons.mp hq' with rfl | hq''
        · exact Nat.le_refl _
        · exact List.rel_of_sorted_cons (hsa ▸ sorted_sortAsc t) q hq''

/-- C8 (witness): the spec's boundary example `{sm:0, lg:900}` at width 900. -/
theorem classifyTable_greatest_le_width_witness :
    (([("sm", 0), ("lg", 900)] : BreakpointTable) ≠ []) ∧
      ((∃ p : String × Nat, p ∈ ([("sm", 0), ("lg", 900)] : BreakpointTable) ∧
          classifyTable [("sm", 0), ("lg", 900)] 900 = p.1 ∧ p.2 ≤ 900 ∧
          ∀ q ∈ ([("sm", 0), ("lg", 900)] : BreakpointTable), q.2 ≤ 900 → q.2 ≤ p.2) ∨
        ((∀ q ∈ ([("sm", 0), ("lg", 900)] : BreakpointTable), 900 < q.2) ∧
          ∃ p : String × Nat, p ∈ ([("sm", 0), ("lg", 900)] : BreakpointTable) ∧
            classifyTable [("sm", 0), ("lg", 900)] 900 = p.1 ∧
            ∀ q ∈ ([("sm", 0), ("lg", 900)] : BreakpointTable), p.2 ≤ q.2)) :=
  ⟨by decide, classifyTable_greatest_le_width _ 900 (by decide)⟩

/-- C7 (counterexample): defaults merged with the custom-only entry
`{custom2: 576}` gives a table where `sm` (merged earlier) and `custom2`
(merged later) share threshold 576; at width 600 — at/above 576 and below
every larger threshold — classification returns `"sm"`, the earlier (default)
entry, not the later-merged custom one. -/
theorem tie_custom_does_not_win_cex :
    ("sm", 576) ∈ mergeBreakpoints DEFAULT_BREAKPOINTS [("custom2", 576)] ∧
      ("custom2", 576) ∈ mergeBreakpoints DEFAULT_BREAKPOINTS [("custom2", 576)] ∧
      (∀ q ∈ mergeBreakpoints DEFAULT_BREAKPOINTS [("custom2", 576)], q.2 ≤ 600 → q.2 ≤ 576) ∧
      classifyTable (mergeBreakpoints DEFAULT_BREAKPOINTS [("custom2", 576)]) 600 = "sm" ∧
      "sm" ≠ "custom2" := by
  refine ⟨?_, ?_, ?_, ?_, ?_⟩ <;> decide

/-- C7 (amended): when entries share a threshold, the entry merged *earlier*
wins: classification returns the first entry, in merge order, among those
carrying the winning threshold (the stable sort keeps merge order within equal
thresholds). -/
theorem classifyTable_tie_earliest_wins (t : BreakpointTable) (w : Nat)
    (h : ∃ q ∈ t, q.2 ≤ w) :
    ∃ p : String × Nat, (t.filter (fun q => q.2 = p.2)).head? = some p ∧
      classifyTable t w = p.1 ∧ p.2 ≤ w ∧ ∀ q ∈ t, q.2 ≤ w → q.2 ≤ p.2 := by
  obtain ⟨q0, hq0, hq0w⟩ := h
  cases hf : (sortDesc t).find? (fun q => w ≥ q.2) with
  | none =>
    have hnq := List.find?_eq_none.mp hf q0 (mem_sortDesc.mpr hq0)
    exact absurd hq0w (by simpa using hnq)
  | some p =>
    refine ⟨p, ?_, ?_, ?_, ?_⟩
    · rw [← filter_sortDesc]
      exact find?_sortedDesc_head_filter (sorted_sortDesc t) hf
    · simp [classifyTable, hf]
    · simpa using List.find?_some hf
    · intro q hq hqw
      exact find?_sortedDesc_greatest (sorted_sortDesc t) hf q (mem_sortDesc.mpr hq) hqw

/-- C7 (witness): the amended tie-break at the counterexample's table. -/
theorem classifyTable_tie_earliest_wins_witness :
    (∃ q ∈ mergeBreakpoints DEFAULT_BREAKPOINTS [("custom2", 576)], q.2 ≤ 600) ∧
      ∃ p : String × Nat,
        ((mergeBreakpoints DEFAULT_BREAKPOINTS [("custom2", 576)]).filter
            (fun q => q.2 = p.2)).head? = some p ∧
        classifyTable (mergeBreakpoints DEFAULT_BREAKPOINTS [("custom2", 576)]) 600 = p.1 ∧
        p.2 ≤ 600 ∧
        ∀ q ∈ mergeBreakpoints DEFAULT_BREAKPOINTS [("custom2", 576)], q.2 ≤ 600 → q.2 ≤ p.2 :=
  ⟨by decide, classifyTable_tie_earliest_wins _ 600 (by decide)⟩

/-- C3 (code evaluated at the failing input): two `ResizeObserver` firings
within one frame each schedule a freshly created `() => this.updateState()`
closure; identity-based dedup keeps both, a single frame is requested, and
when it fires `updateState` executes twice — two `resize` emissions, not the
claimed exactly-one recomputation. -/
theorem raf_burst_double_recompute :
    (resizeObserverFires (resizeObserverFires
        ((updateState (freshEngine (mergeConfig {}) ⟨true, false⟩) envA).1) 0 100) 1 100).rafCallbacks
      = [0, 1] ∧
    (resizeObserverFires (resizeObserverFires
        ((updateState (freshEngine (mergeConfig {}) ⟨true, false⟩) envA).1) 0 100) 1 100).rafId
      = some 100 ∧
    ((fireAnimationFrame (resizeObserverFires (resizeObserverFires
        ((updateState (freshEngine (mergeConfig {}) ⟨true, false⟩) envA).1) 0 100) 1 100) envA).2.countP
      isResizeEvent) = 2 := by
  refine ⟨?_, ?_, ?_⟩ <;> decide

/-- C4 (code evaluated at the failing input): an engine on the fallback
resize path (no `ResizeObserver`), visual viewport present, with a pending
debounce timer.  `destroy()` cancels the frame and disconnects the observer,
but the debounce timer stays armed and the window resize, orientationchange,
visual-viewport resize and media-query change listeners all stay
registered. -/
theorem destroy_leaves_listeners_and_timer :
    (destroy (debouncedCall (freshEngine (mergeConfig {}) ⟨false, true⟩) 7)).isDestroyed = true ∧
    (destroy (debouncedCall (freshEngine (mergeConfig {}) ⟨false, true⟩) 7)).rafId = none ∧
    (destroy (debouncedCall (freshEngine (mergeConfig {}) ⟨false, true⟩) 7)).rafCallbacks = [] ∧
    (destroy (debouncedCall (freshEngine (mergeConfig {}) ⟨false, true⟩) 7)).resizeObserverConnected
      = false ∧
    (destroy (debouncedCall (freshEngine (mergeConfig {}) ⟨false, true⟩) 7)).pendingDebounceTimer
      = some 7 ∧
    (destroy (debouncedCall (freshEngine (mergeConfig {}) ⟨false, true⟩) 7)).windowResizeListener
      = true ∧
    (destroy (debouncedCall (freshEngine (mergeConfig {}) ⟨false, true⟩) 7)).orientationchangeListener
      = true ∧
    (destroy (debouncedCall (freshEngine (mergeConfig {}) ⟨false, true⟩) 7)).visualViewportResizeListener
      = true ∧
    (destroy (debouncedCall (freshEngine (mergeConfig {}) ⟨false, true⟩) 7)).mediaQueryChangeListeners
      = ["xs", "sm", "md", "lg", "xl", "xxl"] := by
  refine ⟨?_, ?_, ?_, ?_, ?_, ?_, ?_, ?_, ?_⟩ <;> decide

/-- The observable behavior of one handler when invoked during an emission:
it may register or unregister one handler of the same event kind (enough to
settle the snapshot question). -/
inductive HandlerEffect where
  | noop
  | addHandler (h : Nat)
  | removeHandler (h : Nat)
deriving Repr, DecidableEq

/-- `Set.delete` on the JS Set's internal entries list: the slot of a present
entry is emptied (not removed), so iteration indices are unaffected. -/
def setDelete (entries : List (Option Nat)) (x : Nat) : List (Option Nat) :=
  entries.map (fun e => if e = some x then none else e)

/-- `EventManager.emit`'s `eventListeners.forEach(callback => …)` over the
LIVE handler set, per the Set iteration protocol: slots are visited left to
right; `add` appends a slot when the value is absent (checked over all
slots); `delete` empties the value's slot; entries appended during the
iteration are visited, entries emptied before being reached are skipped.
`processed` holds the already-passed slots (they still count for membership),
`remaining` the slots ahead.  Returns the handlers invoked, in order.  A
handler may re-trigger iteration endlessly in real JS, hence the fuel. -/
def emitLoop (beh : Nat → HandlerEffect) :
    Nat → List (Option Nat) → List (Option Nat) → List Nat
  | 0, _, _ => []
  | _ + 1, _, [] => []
  | fuel + 1, processed, none :: rest => emitLoop beh fuel (processed ++ [none]) rest
  | fuel + 1, processed, some cb :: rest =>
    match beh cb with
    | HandlerEffect.noop => cb :: emitLoop beh fuel (processed ++ [some cb]) rest
    | HandlerEffect.addHandler x =>
      if some x ∈ processed ++ [some cb] ∨ some x ∈ rest then
        cb :: emitLoop beh fuel (processed ++ [some cb]) rest
      else
        cb :: emitLoop beh fuel (processed ++ [some cb]) (rest ++ [some x])
    | HandlerEffect.removeHandler x =>
      cb :: emitLoop beh fuel (setDelete (processed ++ [some cb]) x) (setDelete rest x)

/-- One `emit` call on a handler set whose entries list is `entries`. -/
def emitRun (beh : Nat → HandlerEffect) (fuel : Nat) (entries : List (Option Nat)) : List Nat :=
  emitLoop beh fuel [] entries

/-- A handler population where handler `a` registers the new handler `x`
during its invocation and every other handler does nothing. -/
def adderBeh (a x : Nat) : Nat → HandlerEffect :=
  fun h => if h = a then HandlerEffect.addHandler x else HandlerEffect.noop

theorem emitLoop_succ_nil (beh : Nat → HandlerEffect) (fuel : Nat)
    (processed : List (Option Nat)) :
    emitLoop beh (fuel + 1) processed [] = [] := rfl

theorem emitLoop_succ_noop (beh : Nat → HandlerEffect) (fuel : Nat)
    (processed rest : List (Option Nat)) (cb : Nat) (hb : beh cb = HandlerEffect.noop) :
    emitLoop beh (fuel + 1) processed (some cb :: rest)
      = cb :: emitLoop beh fuel (processed ++ [some cb]) rest := by
  simp [emitLoop, hb]

theorem emitLoop_succ_add_new (beh : Nat → HandlerEffect) (fuel : Nat)
    (processed rest : List (Option Nat)) (cb x : Nat)
    (hb : beh cb = HandlerEffect.addHandler x)
    (hmem : ¬ (some x ∈ processed ++ [some cb] ∨ some x ∈ rest)) :
    emitLoop beh (fuel + 1) processed (some cb :: rest)
      = cb :: emitLoop beh fuel (processed ++ [some cb]) (rest ++ [some x]) := by
  simp only [emitLoop, hb]
  rw [if_neg hmem]

/-- Running a block of do-nothing handlers just invokes them in order. -/
theorem emitLoop_noop_run (beh : Nat → HandlerEffect) :
    ∀ (pre : List Nat), (∀ p ∈ pre, beh p = HandlerEffect.noop) →
      ∀ (m : Nat) (processed rest : List (Option Nat)),
        emitLoop beh (pre.length + m) processed (pre.map some ++ rest)
          = pre ++ emitLoop beh m (processed ++ pre.map some) rest
  | [] => by intro _ m processed rest; simp
  | p :: ps => by
    intro hpure m processed rest
    have hfuel : (p :: ps).length + m = (ps.length + m) + 1 := by
      simp [List.length_cons]; omega
    rw [hfuel]
    have hb : beh p = HandlerEffect.noop := hpure p (List.mem_cons_self p ps)
    have hstep := emitLoop_succ_noop beh (ps.length + m) processed (ps.map some ++ rest) p hb
    simp only [List.map_cons, List.cons_append]
    rw [hstep,
      emitLoop_noop_run beh ps (fun q hq => hpure q (List.mem_cons_of_mem p hq)) m
        (processed ++ [some p]) rest]
    simp

/-- C5 (counterexample): handler set `{0, 1}`; during the emission handler 0
registers handler 2 for the same kind.  The live iteration invokes `[0,1,2]`,
but the snapshot of the handler set taken at emit time is `[0,1]` — the
mid-emission registration changed which handlers the in-progress emission
invoked. -/
theorem emit_not_snapshot_cex :
    emitRun (adderBeh 0 2) 10 [some 0, some 1] = [0, 1, 2] ∧
      [some 0, some 1].filterMap id = [0, 1] ∧ (2 : Nat) ∉ [0, 1] := by
  refine ⟨?_, ?_, ?_⟩ <;> decide

/-- C5 (amended): `emit` iterates the live handler set, not a snapshot: after
any block of non-mutating handlers, a handler `a` that registers a new
handler `x` for the same kind causes `x` to be invoked by the same
in-progress emission, right after the pre-existing handlers. -/
theorem emit_invokes_handler_added_during_emission
    (pre : List Nat) (a x : Nat) (h1 : a ∉ pre) (h2 : x ∉ pre) (h3 : x ≠ a) :
    emitRun (adderBeh a x) (pre.length + 3) (pre.map some ++ [some a]) = pre ++ [a, x] := by
  unfold emitRun
  have hpure : ∀ p ∈ pre, adderBeh a x p = HandlerEffect.noop := by
    intro p hp
    have : ¬ (p = a) := fun hpa => h1 (hpa ▸ hp)
    simp [adderBeh, this]
  rw [emitLoop_noop_run (adderBeh a x) pre hpure 3 [] [some a]]
  congr 1
  have hba : adderBeh a x a = HandlerEffect.addHandler x := by simp [adderBeh]
  have hbx : adderBeh a x x = HandlerEffect.noop := by simp [adderBeh, h3]
  have hmem : ¬ (some x ∈ ([] ++ pre.map some) ++ [some a] ∨
      some x ∈ ([] : List (Option Nat))) := by
    rintro (h | h)
    · rcases List.mem_append.mp h with hmap | hsing
      · exact h2 (by simpa using hmap)
      · exact h3 (Option.some.inj (List.mem_singleton.mp hsing))
    · exact List.not_mem_nil _ h
  rw [show (3 : Nat) = 2 + 1 from rfl,
    emitLoop_succ_add_new (adderBeh a x) 2 ([] ++ pre.map some) [] a x hba hmem]
  simp only [List.nil_append]
  rw [show (2 : Nat) = 1 + 1 from rfl,
    emitLoop_succ_noop (adderBeh a x) 1 (pre.map some ++ [some a]) [] x hbx]
  rw [show (1 : Nat) = 0 + 1 from rfl, emitLoop_succ_nil]

/-- C5 (witness): the amended behavior at handler set `{5, 7, 1}` where
handler 1 adds handler 2. -/
theorem emit_invokes_handler_added_during_emission_witness :
    (1 ∉ ([5, 7] : List Nat)) ∧ (2 ∉ ([5, 7] : List Nat)) ∧ (2 ≠ 1) ∧
      emitRun (adderBeh 1 2) (([5, 7] : List Nat).length + 3)
          (([5, 7] : List Nat).map some ++ [some 1])
        = [5, 7] ++ [1, 2] :=
  ⟨by decide, by decide, by decide,
    emit_invokes_handler_added_during_emission [5, 7] 1 2 (by decide) (by decide) (by decide)⟩

end ViewportSense
